import Mathlib

/-!
Shallow embedding of the persistence layer of the `music-player` repository
(`src/lib/persistence/db.ts`, `src/lib/persistence/hooks.ts`,
`src/lib/persistence/types.ts`, and the reconciliation flow in
`src/components/music-player.tsx`), together with theorems settling the
specification claims about it.

Modelling conventions:
* JavaScript numbers are modelled as `Int` (timestamps, play counts, play
  times, volumes, positions): every claim only copies, compares or adds
  them, never divides, so integer arithmetic is faithful; 32-bit overflow
  in the folder-id hash is modelled explicitly with `% 2^32`.
* `Date.now()` is nondeterministic, so it is passed in as an explicit
  `now` argument.
* JavaScript objects used as string-keyed records (`Record<string, T>`)
  are modelled as association lists `List (String × T)` with `lookupR`
  (first match) and `setR` (replace in place, else append), matching
  object-key semantics.
* Fields that may be `undefined` on a parsed JSON document are `Option`s;
  `JSON.parse` failure is the `none` case of the document argument.
* The IndexedDB content is a `Store` value threaded explicitly through
  the operations.
-/

namespace ElevenMusic

/-- `TrackStats` from `types.ts`. -/
structure TrackStats where
  trackName : String
  playCount : Int
  queueCount : Int
  lastPlayed : Int
deriving DecidableEq, Repr

/-- One custom playlist entry from `FolderData.customPlaylists` in `types.ts`. -/
structure CustomPlaylist where
  name : String
  tracks : List String
  createdAt : Int
deriving DecidableEq, Repr

/-- `FolderData` from `types.ts` (one record per folder identity). -/
structure FolderData where
  folderId : String
  folderName : String
  lastOpened : Int
  lastPlayedTrackIndex : Int
  lastPlayedPosition : Int
  lastPlayedTimestamp : Int
  favorites : List String
  volume : Int
  isShuffle : Bool
  isRepeat : Bool
  customPlaylists : List CustomPlaylist
  recentlyPlayed : List String
  trackStats : List (String × TrackStats)
deriving DecidableEq, Repr

/-- `GlobalTrackHistory` from `types.ts`. -/
structure GlobalTrackHistory where
  trackName : String
  folderId : String
  folderName : String
  playCount : Int
  totalPlayTime : Int
  lastPlayed : Int
deriving DecidableEq, Repr

/-- `GlobalHistory` from `types.ts`; `tracks` is keyed by `folderId_trackName`. -/
structure GlobalHistory where
  tracks : List (String × GlobalTrackHistory)
  totalPlays : Int
  lastUpdated : Int
deriving DecidableEq, Repr

/-- One entry of `GlobalSettings.recentFolders` from `types.ts`. -/
structure RecentFolder where
  folderId : String
  folderName : String
  lastOpened : Int
deriving DecidableEq, Repr

/-- `GlobalSettings` from `types.ts`; the theme literal is kept as a string. -/
structure GlobalSettings where
  theme : String
  defaultVolume : Int
  recentFolders : List RecentFolder
deriving DecidableEq, Repr

/-- `AudioFile` from `types.ts`; `liked` defaults to `false` where the
scan constructs files, so it is a plain `Bool` here. -/
structure AudioFile where
  id : String
  name : String
  src : String
  liked : Bool
deriving DecidableEq, Repr

/-- The three IndexedDB object stores of `db.ts` (`folders` keyed by
`folderId`, singleton `settings`, singleton `globalHistory`). -/
structure Store where
  folders : List (String × FolderData)
  settings : Option GlobalSettings
  globalHistory : Option GlobalHistory
deriving DecidableEq, Repr

/-- Lookup in a string-keyed record (first matching key). -/
def lookupR {β : Type} (k : String) (l : List (String × β)) : Option β :=
  (l.find? (fun p => p.1 == k)).map (fun p => p.2)

/-- Upsert in a string-keyed record: replace the value in place when the
key is present (JavaScript object assignment / IndexedDB `put`), append
otherwise. -/
def setR {β : Type} (k : String) (v : β) (l : List (String × β)) : List (String × β) :=
  if l.any (fun p => p.1 == k) then
    l.map (fun p => if p.1 == k then (k, v) else p)
  else
    l ++ [(k, v)]

/-- `saveFolderData` from `db.ts`: `put` into the `folders` store, keyed
by `data.folderId`. -/
def saveFolderData (store : Store) (data : FolderData) : Store :=
  { store with folders := setR data.folderId data store.folders }

/-- `loadFolderData` from `db.ts`. -/
def loadFolderData (store : Store) (folderId : String) : Option FolderData :=
  lookupR folderId store.folders

/-- `saveGlobalHistory` from `db.ts` (singleton key). -/
def saveGlobalHistory (store : Store) (h : GlobalHistory) : Store :=
  { store with globalHistory := some h }

/-- `saveGlobalSettings` from `db.ts` (singleton key). -/
def saveGlobalSettings (store : Store) (s : GlobalSettings) : Store :=
  { store with settings := some s }

/-! ## Identity Deriver: `generateFolderId` from `db.ts` -/

/-- UTF-16 code units of a string, as read by JavaScript `charCodeAt`
(astral code points become surrogate pairs). -/
def utf16CodeUnits (s : String) : List Nat :=
  (s.data.map (fun c =>
    let n := c.toNat
    if n < 65536 then [n]
    else [55296 + (n - 65536) / 1024, 56320 + (n - 65536) % 1024])).flatten

/-- JavaScript `ToInt32`: reduce mod `2^32` into the signed 32-bit range. -/
def toInt32 (n : Int) : Int :=
  let m := n % 4294967296
  if m < 2147483648 then m else m - 4294967296

/-- One iteration of the loop in `generateFolderId`:
`hash = ((hash << 5) - hash) + char; hash = hash & hash`. -/
def hashStep (hash : Int) (c : Nat) : Int :=
  toInt32 (toInt32 (hash * 32) - hash + (c : Int))

/-- The rolling hash loop of `generateFolderId` over a string. -/
def jsHash (s : String) : Int :=
  (utf16CodeUnits s).foldl hashStep 0

/-- One digit of JavaScript `Number.prototype.toString(36)`. -/
def base36Char (n : Nat) : Char :=
  if n < 10 then Char.ofNat (48 + n) else Char.ofNat (87 + n)

/-- Digit expansion of `Number.prototype.toString(36)` for naturals. -/
def toBase36Go (n : Nat) : List Char :=
  if _h : n < 36 then [base36Char n]
  else toBase36Go (n / 36) ++ [base36Char (n % 36)]
termination_by n
decreasing_by exact Nat.div_lt_self (by omega) (by omega)

/-- JavaScript `Math.abs(hash).toString(36)` rendering. -/
def toBase36 (n : Nat) : String :=
  String.mk (toBase36Go n)

/-- The `[...trackNames].sort()` step: JavaScript `Array.prototype.sort`
with the default string comparator is a comparison sort over a total
order, so its output is the unique sorted arrangement. -/
def sortStrings (l : List String) : List String :=
  List.insertionSort (fun a b => a ≤ b) l

/-- `generateFolderId` from `db.ts`. -/
def generateFolderId (folderName : String) (trackNames : List String) : String :=
  let sortedTracks := String.intercalate "|" (sortStrings trackNames)
  let hashInput := folderName ++ "::" ++ sortedTracks
  "folder_" ++ toBase36 (jsHash hashInput).natAbs

theorem sortStrings_perm {l l' : List String} (h : l.Perm l') :
    sortStrings l = sortStrings l' :=
  List.eq_of_perm_of_sorted
    (((List.perm_insertionSort _ l).trans h).trans
      (List.perm_insertionSort _ l').symm)
    (List.sorted_insertionSort _ l)
    (List.sorted_insertionSort _ l')

/-- Claim C1: `generateFolderId` is pure and deterministic — calling it
twice on the same folder name and track-name list yields identical
output, and calling it on any permutation of the track-name list yields
identical output. -/
theorem generateFolderId_pure_perm (folderName : String) (l l' : List String)
    (h : l.Perm l') :
    generateFolderId folderName l = generateFolderId folderName l ∧
    generateFolderId folderName l = generateFolderId folderName l' := by
  refine ⟨rfl, ?_⟩
  unfold generateFolderId
  rw [sortStrings_perm h]

/-- Witness for C1 at folder "Album" and the two orderings of tracks
"A", "B". -/
theorem generateFolderId_pure_perm_witness :
    generateFolderId "Album" ["B", "A"] = generateFolderId "Album" ["B", "A"] ∧
    generateFolderId "Album" ["B", "A"] = generateFolderId "Album" ["A", "B"] :=
  generateFolderId_pure_perm "Album" ["B", "A"] ["A", "B"]
    (List.Perm.swap "A" "B" [])

/- Every remaining claim treats the derived folder id as an opaque key,
so keep the hash opaque to the elaborator from here on. -/
attribute [irreducible] generateFolderId

/-! ## Export/Import Codec: `exportFolderData` / `importFolderData` from `hooks.ts` -/

/-- The `folderData` member of a parsed export document. Every field may
be `undefined` on an arbitrary JSON document, hence `Option`s; a document
produced by `exportFolderData` has every field present. -/
structure RawFolderData where
  folderId : Option String
  folderName : Option String
  lastOpened : Option Int
  lastPlayedTrackIndex : Option Int
  lastPlayedPosition : Option Int
  lastPlayedTimestamp : Option Int
  favorites : Option (List String)
  volume : Option Int
  isShuffle : Option Bool
  isRepeat : Option Bool
  customPlaylists : Option (List CustomPlaylist)
  recentlyPlayed : Option (List String)
  trackStats : Option (List (String × TrackStats))
deriving DecidableEq, Repr

/-- A parsed export document (`ExportData` from `types.ts`, as it looks
after `JSON.parse`, i.e. with possibly-missing members). -/
structure RawExport where
  version : Option String
  exportedAt : Option Int
  folderData : Option RawFolderData
  globalHistory : Option GlobalHistory
deriving DecidableEq, Repr

/-- The non-null return value of `importFolderData`. -/
structure ImportResult where
  folderData : RawFolderData
  globalHistory : Option GlobalHistory
deriving DecidableEq, Repr

/-- `importFolderData` from `hooks.ts`. The argument `doc` is the result
of `JSON.parse(jsonContent)` (`none` = parse threw). Notes on fidelity:
* `!data.version` is true for a missing version and for the empty string;
* `data.folderData.favorites.filter(...)` throws a `TypeError` when
  `favorites` is absent; the surrounding `try`/`catch` turns that throw
  into a `null` return, hence the `none` result in that branch;
* a missing `lastPlayedTrackIndex` stays `undefined`: both comparisons
  `undefined < 0` and `undefined >= currentFiles.length` are false, so
  the `undefined` is passed through;
* a missing `trackStats` yields the empty record. -/
def importFolderData (doc : Option RawExport) (currentFiles : List AudioFile) :
    Option ImportResult :=
  match doc with
  | none => none
  | some data =>
    if data.version = none ∨ data.version = some "" then none
    else
      match data.folderData with
      | none => none
      | some fd =>
        match fd.favorites with
        | none => none
        | some favs =>
          let currentTrackNames := currentFiles.map (fun f => f.name)
          let validFavorites := favs.filter (fun n => currentTrackNames.contains n)
          let validTrackIndex : Option Int :=
            fd.lastPlayedTrackIndex.map (fun i =>
              if i < 0 ∨ (currentFiles.length : Int) ≤ i then 0 else i)
          let validTrackStats :=
            (fd.trackStats.getD []).filter (fun p => currentTrackNames.contains p.1)
          some { folderData :=
                   { fd with favorites := some validFavorites,
                             lastPlayedTrackIndex := validTrackIndex,
                             trackStats := some validTrackStats },
                 globalHistory := data.globalHistory }

/-- The `folderData` object built by `exportFolderData` in `hooks.ts`
(`existingData?.x || default` — an existing array is always truthy, even
when empty, so the stored value wins whenever a record exists). -/
def exportFolderBody (store : Store) (files : List AudioFile) (folderName : String)
    (currentIndex currentTime volume : Int) (isShuffle isRepeat : Bool)
    (now : Int) : RawFolderData :=
  let trackNames := files.map (fun f => f.name)
  let folderId := generateFolderId folderName trackNames
  let existingData := loadFolderData store folderId
  { folderId := some folderId
    folderName := some folderName
    lastOpened := some now
    lastPlayedTrackIndex := some currentIndex
    lastPlayedPosition := some currentTime
    lastPlayedTimestamp := some now
    favorites := some (match existingData with
      | some e => e.favorites
      | none => (files.filter (fun f => f.liked)).map (fun f => f.name))
    volume := some volume
    isShuffle := some isShuffle
    isRepeat := some isRepeat
    customPlaylists := some ((existingData.map (fun e => e.customPlaylists)).getD [])
    recentlyPlayed := some ((existingData.map (fun e => e.recentlyPlayed)).getD [])
    trackStats := some ((existingData.map (fun e => e.trackStats)).getD []) }

/-- `exportFolderData` from `hooks.ts`: the document whose JSON rendering
is returned to the caller. -/
def exportFolderData (store : Store) (files : List AudioFile) (folderName : String)
    (currentIndex currentTime volume : Int) (isShuffle isRepeat : Bool)
    (now : Int) : RawExport :=
  { version := some "1.0.0"
    exportedAt := some now
    folderData := some (exportFolderBody store files folderName currentIndex
      currentTime volume isShuffle isRepeat now)
    globalHistory := some ((store.globalHistory).getD
      { tracks := [], totalPlays := 0, lastUpdated := now }) }

/-- Lookup commutes with filtering a record by a key predicate. -/
theorem lookupR_filter {β : Type} (q : String → Bool) (k : String)
    (l : List (String × β)) :
    lookupR k (l.filter (fun p => q p.1)) = if q k then lookupR k l else none := by
  induction l with
  | nil => simp [lookupR]
  | cons p t ih =>
    by_cases hk : p.1 = k
    · subst hk
      by_cases hq : q p.1
      · simp [lookupR, List.filter_cons, hq, List.find?]
      · simpa [lookupR, List.filter_cons, hq, List.find?] using ih
    · have hbk : (p.1 == k) = false := by simp [hk]
      by_cases hq : q p.1
      · simpa [lookupR, List.filter_cons, hq, List.find?, hbk] using ih
      · simpa [lookupR, List.filter_cons, hq, List.find?, hbk] using ih

/-- Claim C3: importing the document produced by `exportFolderData`, when
the same file set is rescanned, returns `folderData` with the exported
favorites and trackStats modulo pruning to the rescanned names, and the
exported `lastPlayedTrackIndex` (the live index, which is a valid index
of the file list in any playback state). -/
theorem exportImport_roundTrip (store : Store) (files : List AudioFile)
    (folderName : String) (currentIndex currentTime volume : Int)
    (isShuffle isRepeat : Bool) (now : Int)
    (h0 : 0 ≤ currentIndex) (h1 : currentIndex < (files.length : Int)) :
    importFolderData
        (some (exportFolderData store files folderName currentIndex currentTime
          volume isShuffle isRepeat now)) files =
      some { folderData :=
               { exportFolderBody store files folderName currentIndex currentTime
                   volume isShuffle isRepeat now with
                 favorites := some
                   (((exportFolderBody store files folderName currentIndex currentTime
                       volume isShuffle isRepeat now).favorites.getD []).filter
                     (fun n => (files.map (fun f => f.name)).contains n)),
                 lastPlayedTrackIndex := some currentIndex,
                 trackStats := some
                   (((exportFolderBody store files folderName currentIndex currentTime
                       volume isShuffle isRepeat now).trackStats.getD []).filter
                     (fun p => (files.map (fun f => f.name)).contains p.1)) },
             globalHistory := some ((store.globalHistory).getD
               { tracks := [], totalPlays := 0, lastUpdated := now }) } := by
  simp only [importFolderData, exportFolderData, exportFolderBody]
  rw [if_neg (by simp)]
  simp only [Option.getD_some, Option.map_some']
  rw [if_neg (by omega)]

/-- Witness for C3: a concrete store, one file, index 0. -/
theorem exportImport_roundTrip_witness :
    importFolderData
        (some (exportFolderData ⟨[], none, none⟩ [⟨"0-a", "a", "blob:a", false⟩]
          "Album" 0 0 1 false false 7)) [⟨"0-a", "a", "blob:a", false⟩] =
      some { folderData :=
               { exportFolderBody ⟨[], none, none⟩ [⟨"0-a", "a", "blob:a", false⟩]
                   "Album" 0 0 1 false false 7 with
                 favorites := some
                   (((exportFolderBody ⟨[], none, none⟩ [⟨"0-a", "a", "blob:a", false⟩]
                       "Album" 0 0 1 false false 7).favorites.getD []).filter
                     (fun n => (([⟨"0-a", "a", "blob:a", false⟩] :
                        List AudioFile).map (fun f => f.name)).contains n)),
                 lastPlayedTrackIndex := some 0,
                 trackStats := some
                   (((exportFolderBody ⟨[], none, none⟩ [⟨"0-a", "a", "blob:a", false⟩]
                       "Album" 0 0 1 false false 7).trackStats.getD []).filter
                     (fun p => (([⟨"0-a", "a", "blob:a", false⟩] :
                        List AudioFile).map (fun f => f.name)).contains p.1)) },
             globalHistory := some { tracks := [], totalPlays := 0, lastUpdated := 7 } } :=
  exportImport_roundTrip ⟨[], none, none⟩ [⟨"0-a", "a", "blob:a", false⟩]
    "Album" 0 0 1 false false 7 (by decide) (by decide)

/-- A document with `version` and `folderData` present but no `favorites`
array (every other field present). -/
def docNoFavorites : RawExport :=
  { version := some "1.0.0"
    exportedAt := some 0
    folderData := some
      { folderId := some "folder_x"
        folderName := some "Album"
        lastOpened := some 0
        lastPlayedTrackIndex := some 0
        lastPlayedPosition := some 0
        lastPlayedTimestamp := some 0
        favorites := none
        volume := some 1
        isShuffle := some false
        isRepeat := some false
        customPlaylists := some []
        recentlyPlayed := some []
        trackStats := some [("A", ⟨"A", 2, 0, 0⟩)] }
    globalHistory := none }

/-- Counterexample to C4: `docNoFavorites` has both `version` and
`folderData`, yet `importFolderData` rejects it (the unguarded
`favorites.filter` throws, the `catch` returns `null`) instead of
falling back to a default favorites list. -/
theorem importFolderData_missing_favorites_rejected :
    docNoFavorites.version = some "1.0.0" ∧
    (docNoFavorites.folderData).isSome = true ∧
    importFolderData (some docNoFavorites)
      [{ id := "0-A", name := "A", src := "blob:A", liked := false }] = none :=
  ⟨rfl, rfl, rfl⟩

/-- Claim C4 (amended): `importFolderData` rejects (returns `null` with a
report, never throwing to the caller) exactly when the document fails to
parse, is missing `version` (or has an empty-string version), is missing
`folderData`, or is missing the `favorites` array inside `folderData`;
for documents passing those checks, the remaining optional fields fall
back field-by-field — a missing `trackStats` becomes the empty stats
record and a missing `lastPlayedTrackIndex` is passed through absent —
rather than causing rejection. -/
theorem importFolderData_rejection_amended (doc : RawExport)
    (files : List AudioFile) :
    (importFolderData none files = none) ∧
    (importFolderData (some doc) files = none ↔
      doc.version = none ∨ doc.version = some "" ∨
      (doc.folderData.bind (fun fd => fd.favorites)) = none) ∧
    (∀ fd favs, doc.version ≠ none → doc.version ≠ some "" →
      doc.folderData = some fd → fd.favorites = some favs →
      importFolderData (some doc) files = some
        { folderData :=
            { fd with
              favorites := some (favs.filter
                (fun n => (files.map (fun f => f.name)).contains n)),
              lastPlayedTrackIndex := fd.lastPlayedTrackIndex.map (fun i =>
                if i < 0 ∨ (files.length : Int) ≤ i then 0 else i),
              trackStats := some ((fd.trackStats.getD []).filter
                (fun p => (files.map (fun f => f.name)).contains p.1)) },
          globalHistory := doc.globalHistory }) := by
  refine ⟨rfl, ?_, ?_⟩
  · by_cases hv : doc.version = none ∨ doc.version = some ""
    · constructor
      · intro _
        rcases hv with h | h
        · exact Or.inl h
        · exact Or.inr (Or.inl h)
      · intro _
        simp [importFolderData, hv]
    · push_neg at hv
      match hfd : doc.folderData with
      | none => simp [importFolderData, hv.1, hv.2, hfd]
      | some fd =>
        match hfav : fd.favorites with
        | none => simp [importFolderData, hv.1, hv.2, hfd, hfav]
        | some favs => simp [importFolderData, hv.1, hv.2, hfd, hfav]
  · intro fd favs hv1 hv2 hfd hfav
    have hv : ¬(doc.version = none ∨ doc.version = some "") := by
      intro h; rcases h with h | h
      · exact hv1 h
      · exact hv2 h
    simp [importFolderData, hv, hfd, hfav]

/-- Witness for C4's amended theorem: the defaulting branch applied to a
concrete document missing `trackStats` and `lastPlayedTrackIndex`. -/
theorem importFolderData_rejection_amended_witness :
    importFolderData
        (some { version := some "1.0.0", exportedAt := some 0,
                folderData := some
                  { folderId := none, folderName := none, lastOpened := none,
                    lastPlayedTrackIndex := none, lastPlayedPosition := none,
                    lastPlayedTimestamp := none, favorites := some ["A", "C"],
                    volume := none, isShuffle := none, isRepeat := none,
                    customPlaylists := none, recentlyPlayed := none,
                    trackStats := none },
                globalHistory := none })
        [{ id := "0-A", name := "A", src := "blob:A", liked := false }] = some
      { folderData :=
          { folderId := none, folderName := none, lastOpened := none,
            lastPlayedTrackIndex := none, lastPlayedPosition := none,
            lastPlayedTimestamp := none,
            favorites := some (["A", "C"].filter
              (fun n => (([⟨"0-A", "A", "blob:A", false⟩] :
                List AudioFile).map (fun f => f.name)).contains n)),
            volume := none, isShuffle := none, isRepeat := none,
            customPlaylists := none, recentlyPlayed := none,
            trackStats := some (((none : Option (List (String × TrackStats))).getD
              []).filter (fun p => (([⟨"0-A", "A", "blob:A", false⟩] :
                List AudioFile).map (fun f => f.name)).contains p.1)) },
        globalHistory := none } := by
  have h := (importFolderData_rejection_amended
    { version := some "1.0.0", exportedAt := some 0,
      folderData := some
        { folderId := none, folderName := none, lastOpened := none,
          lastPlayedTrackIndex := none, lastPlayedPosition := none,
          lastPlayedTimestamp := none, favorites := some ["A", "C"],
          volume := none, isShuffle := none, isRepeat := none,
          customPlaylists := none, recentlyPlayed := none, trackStats := none },
      globalHistory := none }
    [{ id := "0-A", name := "A", src := "blob:A", liked := false }]).2.2
    _ _ (by decide) (by decide) rfl rfl
  simpa using h

/-- A well-formed export document whose `lastPlayedTrackIndex` is 5. -/
def docIndexFive : RawExport :=
  { version := some "1.0.0"
    exportedAt := some 0
    folderData := some
      { folderId := some "folder_x"
        folderName := some "Album"
        lastOpened := some 0
        lastPlayedTrackIndex := some 5
        lastPlayedPosition := some 0
        lastPlayedTimestamp := some 0
        favorites := some []
        volume := some 1
        isShuffle := some false
        isRepeat := some false
        customPlaylists := some []
        recentlyPlayed := some []
        trackStats := some [] }
    globalHistory := none }

/-- Counterexample to C5: importing `docIndexFive` against an empty
current file list is accepted and yields `lastPlayedTrackIndex = 0`,
yet no index can lie in `[0, currentFiles.length) = [0, 0)` — the code
clamps to `0` rather than into the (empty) claimed range. -/
theorem importFolderData_clamp_empty_counterexample :
    (importFolderData (some docIndexFive) []).map
        (fun r => r.folderData.lastPlayedTrackIndex) = some (some 0) ∧
    ¬ ((0 : Int) ≤ 0 ∧ (0 : Int) < ((([] : List AudioFile)).length : Int)) :=
  ⟨rfl, by decide⟩

/-- Claim C5 (amended): for every accepted import document,
`importFolderData` returns `folderData` whose favorites and trackStats
keys are exactly those of the input restricted to names present in the
current file list; when the input `lastPlayedTrackIndex` is present, the
output index is the input index if it lies in `[0, currentFiles.length)`
and `0` otherwise (in particular `0` against an empty file list); when it
is absent it is passed through absent. -/
theorem importFolderData_prune_clamp_amended (doc : RawExport)
    (files : List AudioFile) (fd : RawFolderData) (favs : List String)
    (hv1 : doc.version ≠ none) (hv2 : doc.version ≠ some "")
    (hfd : doc.folderData = some fd) (hfav : fd.favorites = some favs) :
    importFolderData (some doc) files = some
      { folderData :=
          { fd with
            favorites := some (favs.filter
              (fun n => (files.map (fun f => f.name)).contains n)),
            lastPlayedTrackIndex := fd.lastPlayedTrackIndex.map (fun i =>
              if i < 0 ∨ (files.length : Int) ≤ i then 0 else i),
            trackStats := some ((fd.trackStats.getD []).filter
              (fun p => (files.map (fun f => f.name)).contains p.1)) },
        globalHistory := doc.globalHistory } ∧
    (∀ n, n ∈ favs.filter (fun n => (files.map (fun f => f.name)).contains n) ↔
      n ∈ favs ∧ n ∈ files.map (fun f => f.name)) ∧
    (∀ k, lookupR k ((fd.trackStats.getD []).filter
        (fun p => (files.map (fun f => f.name)).contains p.1)) =
      if (files.map (fun f => f.name)).contains k then
        lookupR k (fd.trackStats.getD []) else none) ∧
    (∀ i, fd.lastPlayedTrackIndex = some i →
      (fd.lastPlayedTrackIndex.map (fun j =>
          if j < 0 ∨ (files.length : Int) ≤ j then 0 else j)) =
        some (if 0 ≤ i ∧ i < (files.length : Int) then i else 0)) := by
  refine ⟨?_, ?_, ?_, ?_⟩
  · simp [importFolderData, hv1, hv2, hfd, hfav]
  · intro n
    simp [List.mem_filter]
  · intro k
    exact lookupR_filter _ k _
  · intro i hi
    rw [hi, Option.map_some']
    by_cases h : 0 ≤ i ∧ i < (files.length : Int)
    · rw [if_pos h, if_neg (by omega)]
    · rw [if_neg h, if_pos (by omega)]

/-- Witness for C5's amended theorem at `docIndexFive` against a
two-file list: the out-of-range index 5 clamps to 0. -/
theorem importFolderData_prune_clamp_amended_witness :
    importFolderData (some docIndexFive)
        [⟨"0-A", "A", "blob:A", false⟩, ⟨"1-B", "B", "blob:B", false⟩] = some
      { folderData :=
          { (docIndexFive.folderData.getD ⟨none, none, none, none, none, none,
              none, none, none, none, none, none, none⟩) with
            favorites := some (([] : List String).filter
              (fun n => (([⟨"0-A", "A", "blob:A", false⟩,
                ⟨"1-B", "B", "blob:B", false⟩] : List AudioFile).map
                  (fun f => f.name)).contains n)),
            lastPlayedTrackIndex := (some (5 : Int)).map (fun i =>
              if i < 0 ∨ ((2 : Nat) : Int) ≤ i then 0 else i),
            trackStats := some (([] : List (String × TrackStats)).filter
              (fun p => (([⟨"0-A", "A", "blob:A", false⟩,
                ⟨"1-B", "B", "blob:B", false⟩] : List AudioFile).map
                  (fun f => f.name)).contains p.1)) },
        globalHistory := none } := by
  have h := (importFolderData_prune_clamp_amended docIndexFive
    [⟨"0-A", "A", "blob:A", false⟩, ⟨"1-B", "B", "blob:B", false⟩]
    (docIndexFive.folderData.getD ⟨none, none, none, none, none, none,
      none, none, none, none, none, none, none⟩) []
    (by decide) (by decide) rfl rfl).1
  simpa using h

/-! ## History Aggregator: `trackPlay` / `trackQueue` from `hooks.ts` -/

/-- The lazily-initialized `FolderData` defaults of `trackPlay` in
`hooks.ts` (`await loadFolderData(folderId) || { ... }`). -/
def defaultFolderData (folderId folderName : String) (now : Int) : FolderData :=
  { folderId := folderId
    folderName := folderName
    lastOpened := now
    lastPlayedTrackIndex := 0
    lastPlayedPosition := 0
    lastPlayedTimestamp := now
    favorites := []
    volume := 1
    isShuffle := false
    isRepeat := false
    customPlaylists := []
    recentlyPlayed := []
    trackStats := [] }

/-- The lazily-initialized `TrackStats` defaults of `trackPlay` and
`trackQueue` in `hooks.ts`. -/
def defaultTrackStats (trackName : String) (now : Int) : TrackStats :=
  { trackName := trackName, playCount := 0, queueCount := 0, lastPlayed := now }

/-- The lazily-initialized `GlobalHistory` defaults of `trackPlay` in
`hooks.ts`. -/
def defaultGlobalHistory (now : Int) : GlobalHistory :=
  { tracks := [], totalPlays := 0, lastUpdated := now }

/-- The lazily-initialized `GlobalTrackHistory` defaults of `trackPlay`. -/
def defaultGlobalTrackHistory (trackName folderId folderName : String)
    (now : Int) : GlobalTrackHistory :=
  { trackName := trackName, folderId := folderId, folderName := folderName,
    playCount := 0, totalPlayTime := 0, lastPlayed := now }

/-- `trackPlay` from `hooks.ts`: update per-folder stats and recently
played, persist the folder record, then update the global history and
persist it; returns both updated records. Out-of-range `trackIndex`
(`files[trackIndex]?.name` undefined) returns early with no effect. -/
def trackPlay (store : Store) (folderName : String) (files : List AudioFile)
    (trackIndex : Nat) (playTime : Int) (now : Int) :
    Store × Option (FolderData × GlobalHistory) :=
  let trackNames := files.map (fun f => f.name)
  let folderId := generateFolderId folderName trackNames
  match files[trackIndex]? with
  | none => (store, none)
  | some file =>
    let trackName := file.name
    let folderData := (loadFolderData store folderId).getD
      (defaultFolderData folderId folderName now)
    let stats := (lookupR trackName folderData.trackStats).getD
      (defaultTrackStats trackName now)
    let stats' := { stats with playCount := stats.playCount + 1, lastPlayed := now }
    let recentlyPlayed :=
      (trackName :: folderData.recentlyPlayed.filter (fun n => n != trackName)).take 50
    let folderData' := { folderData with
      trackStats := setR trackName stats' folderData.trackStats
      recentlyPlayed := recentlyPlayed }
    let store1 := saveFolderData store folderData'
    let globalHistory := (store1.globalHistory).getD (defaultGlobalHistory now)
    let trackId := folderId ++ "_" ++ trackName
    let entry := (lookupR trackId globalHistory.tracks).getD
      (defaultGlobalTrackHistory trackName folderId folderName now)
    let entry' := { entry with
      playCount := entry.playCount + 1
      totalPlayTime := entry.totalPlayTime + playTime
      lastPlayed := now }
    let globalHistory' := { globalHistory with
      tracks := setR trackId entry' globalHistory.tracks
      totalPlays := globalHistory.totalPlays + 1
      lastUpdated := now }
    let store2 := saveGlobalHistory store1 globalHistory'
    (store2, some (folderData', globalHistory'))

/-- `trackQueue` from `hooks.ts`: increments `queueCount` of the named
track inside an existing folder record; a missing folder record (or an
out-of-range index) is a no-op. -/
def trackQueue (store : Store) (folderName : String) (files : List AudioFile)
    (trackIndex : Nat) (now : Int) : Store × Option TrackStats :=
  let trackNames := files.map (fun f => f.name)
  let folderId := generateFolderId folderName trackNames
  match files[trackIndex]? with
  | none => (store, none)
  | some file =>
    let trackName := file.name
    match loadFolderData store folderId with
    | none => (store, none)
    | some folderData =>
      let stats := (lookupR trackName folderData.trackStats).getD
        (defaultTrackStats trackName now)
      let stats' := { stats with queueCount := stats.queueCount + 1 }
      let folderData' := { folderData with
        trackStats := setR trackName stats' folderData.trackStats }
      (saveFolderData store folderData', some stats')

/-- `updateRecentFolders` from `hooks.ts`. -/
def updateRecentFolders (store : Store) (folderId folderName : String)
    (now : Int) : Store :=
  let settings := (store.settings).getD
    { theme := "dark", defaultVolume := 1, recentFolders := [] }
  let withoutCurrent := settings.recentFolders.filter
    (fun f => f.folderId != folderId)
  let recentFolders :=
    (({ folderId := folderId, folderName := folderName, lastOpened := now } :
      RecentFolder) :: withoutCurrent).take 10
  saveGlobalSettings store { settings with recentFolders := recentFolders }

/-! ## Debounced save and `saveState` from `hooks.ts` -/

/-- The live state handed to `saveState` (`PersistenceState` in
`hooks.ts`). -/
structure PersistenceState where
  folderId : String
  folderName : String
  files : List AudioFile
  currentIndex : Int
  currentTime : Int
  volume : Int
  isShuffle : Bool
  isRepeat : Bool
deriving DecidableEq, Repr

/-- The `FolderData` record that `saveState` in `hooks.ts` builds and
hands to `debouncedSave` for writing: live playback fields from the
state, `customPlaylists` / `recentlyPlayed` / `trackStats` carried over
from the previously stored record (empty defaults when none exists). -/
def saveStateRecord (store : Store) (state : PersistenceState) (now : Int) :
    FolderData :=
  let trackNames := state.files.map (fun f => f.name)
  let folderId := generateFolderId state.folderName trackNames
  let existingData := loadFolderData store folderId
  { folderId := folderId
    folderName := state.folderName
    lastOpened := now
    lastPlayedTrackIndex := state.currentIndex
    lastPlayedPosition := state.currentTime
    lastPlayedTimestamp := now
    favorites := (state.files.filter (fun f => f.liked)).map (fun f => f.name)
    volume := state.volume
    isShuffle := state.isShuffle
    isRepeat := state.isRepeat
    customPlaylists := (existingData.map (fun e => e.customPlaylists)).getD []
    recentlyPlayed := (existingData.map (fun e => e.recentlyPlayed)).getD []
    trackStats := (existingData.map (fun e => e.trackStats)).getD [] }

/-- The store write performed when the debounced timer armed by
`saveState` finally fires. -/
def saveStateWrite (store : Store) (state : PersistenceState) (now : Int) :
    Store :=
  saveFolderData store (saveStateRecord store state now)

/-- One `debouncedSave(saveFn)` call from `hooks.ts` at time `t`:
`clearTimeout` of the pending timer (it has already fired only if its
deadline lay at or before `t`), then `setTimeout(saveFn, 1000)`. Returns
the writes that fired strictly before this call could cancel them,
together with the newly armed timer. -/
def debouncedSaveCall {α : Type} (pending : Option (Nat × α)) (t : Nat)
    (f : α) : List α × Option (Nat × α) :=
  let fired := match pending with
    | some (deadline, g) => if deadline ≤ t then [g] else []
    | none => []
  (fired, some (t + 1000, f))

/-- Run a time-stamped sequence of `debouncedSave` calls against a
pending timer, collecting every write that executed. -/
def runDebounce {α : Type} : List (Nat × α) → Option (Nat × α) →
    List α × Option (Nat × α)
  | [], pending => ([], pending)
  | (t, f) :: rest, pending =>
    let step := debouncedSaveCall pending t f
    let tail := runDebounce rest step.2
    (step.1 ++ tail.1, tail.2)

/-- Let time advance to `t` with no further calls: the pending timer
fires exactly when its deadline has been reached. -/
def elapse {α : Type} (pending : Option (Nat × α)) (t : Nat) : List α :=
  match pending with
  | some (deadline, g) => if deadline ≤ t then [g] else []
  | none => []

/-- The last of a nonempty sequence of calls. -/
def lastCall {α : Type} (c : Nat × α) : List (Nat × α) → Nat × α
  | [] => c
  | d :: rest => lastCall d rest

/-! ## State Reconciler: `handleFolderSelect` flow from `music-player.tsx` -/

/-- In-memory player state touched by reconciliation (`useState` hooks in
`music-player.tsx`; `currentIndex` starts at `-1`). -/
structure PlayerState where
  files : List AudioFile
  currentIndex : Int
  trackStats : List (String × TrackStats)
  volume : Int
  isShuffle : Bool
  isRepeat : Bool
deriving DecidableEq, Repr

/-- View a stored `FolderData` as the partial record handed to
`applyPersistedData` (every field present). -/
def toRaw (fd : FolderData) : RawFolderData :=
  { folderId := some fd.folderId
    folderName := some fd.folderName
    lastOpened := some fd.lastOpened
    lastPlayedTrackIndex := some fd.lastPlayedTrackIndex
    lastPlayedPosition := some fd.lastPlayedPosition
    lastPlayedTimestamp := some fd.lastPlayedTimestamp
    favorites := some fd.favorites
    volume := some fd.volume
    isShuffle := some fd.isShuffle
    isRepeat := some fd.isRepeat
    customPlaylists := some fd.customPlaylists
    recentlyPlayed := some fd.recentlyPlayed
    trackStats := some fd.trackStats }

/-- `applyPersistedData` from `music-player.tsx`: hydrate liked flags
from `favorites`, replace trackStats when present, restore the current
index (a present index `>= 0` wins, else `0` when files exist, else the
index is left alone), and restore volume/shuffle/repeat when present. -/
def applyPersistedData (data : RawFolderData) (audioFiles : List AudioFile)
    (s : PlayerState) : PlayerState :=
  let likedNames := data.favorites.getD []
  let filesWithLikes := audioFiles.map (fun f =>
    { f with liked := likedNames.contains f.name })
  { files := filesWithLikes
    trackStats := (data.trackStats).getD s.trackStats
    currentIndex := match data.lastPlayedTrackIndex with
      | some i => if 0 ≤ i then i
          else if 0 < audioFiles.length then 0 else s.currentIndex
      | none => if 0 < audioFiles.length then 0 else s.currentIndex
    volume := data.volume.getD s.volume
    isShuffle := data.isShuffle.getD s.isShuffle
    isRepeat := data.isRepeat.getD s.isRepeat }

/-- `loadState` from `hooks.ts`: load the folder record under the derived
id, resetting a stored index `>= files.length` to `0`. -/
def loadState (store : Store) (folderName : String) (files : List AudioFile) :
    Option FolderData :=
  let trackNames := files.map (fun f => f.name)
  let folderId := generateFolderId folderName trackNames
  match loadFolderData store folderId with
  | none => none
  | some data =>
    some (if (files.length : Int) ≤ data.lastPlayedTrackIndex then
      { data with lastPlayedTrackIndex := 0 } else data)

/-- `applyImportedData` from `hooks.ts`: write an imported global history
through to the store as a wholesale replacement (no-op when absent). -/
def applyImportedData (store : Store) (r : ImportResult) : Store :=
  match r.globalHistory with
  | some gh => saveGlobalHistory store gh
  | none => store

/-- `loadFromJsonFile` from `music-player.tsx`: `jsonFile` is the parse
result of the file named `.elevenmusic.json` among the scanned inputs,
when one is present (`none` = no reserved file; `some none` = present
but unreadable/unparseable, which `importFolderData` maps to `null`). -/
def parseScannedExport (jsonFile : Option (Option RawExport))
    (audioFiles : List AudioFile) : Option ImportResult :=
  match jsonFile with
  | none => none
  | some parsed => importFolderData parsed audioFiles

/-- `handleFolderSelect` from `music-player.tsx`, after the scan built
`audioFiles` (liked flags start `false`). Priority: a valid export
document wins (its global history written through), else the stored
folder record via `loadState`, else scan defaults. -/
def handleFolderSelect (store : Store) (s : PlayerState)
    (audioFiles : List AudioFile) (jsonFile : Option (Option RawExport))
    (folderPath : String) : PlayerState × Store :=
  match parseScannedExport jsonFile audioFiles with
  | some r =>
    (applyPersistedData r.folderData audioFiles s, applyImportedData store r)
  | none =>
    match loadState store folderPath audioFiles with
    | some dbData => (applyPersistedData (toRaw dbData) audioFiles s, store)
    | none =>
      ({ s with files := audioFiles
                trackStats := []
                currentIndex := if 0 < audioFiles.length then 0
                  else s.currentIndex },
       store)

/-! ## Record-map lemmas and the aggregator claims -/

/-- After an upsert, looking up the written key yields the new value. -/
theorem lookupR_setR_self {β : Type} (k : String) (v : β)
    (l : List (String × β)) : lookupR k (setR k v l) = some v := by
  induction l with
  | nil => simp [setR, lookupR]
  | cons p t ih =>
    by_cases hk : p.1 = k
    · simp [setR, lookupR, hk, List.find?]
    · have hbk : (p.1 == k) = false := by simp [hk]
      by_cases ht : t.any (fun p => p.1 == k)
      · have : (p :: t).any (fun p => p.1 == k) = true := by
          simp [List.any_cons, ht]
        simp only [setR, this, if_true] at *
        simpa [lookupR, List.find?, hbk, setR, ht] using ih
      · have : (p :: t).any (fun p => p.1 == k) = false := by
          simp [List.any_cons, hbk, ht]
        simp only [setR, this] at *
        simpa [lookupR, List.find?, hbk, setR, ht] using ih

/-- Unfold one step of record lookup. -/
theorem lookupR_cons {β : Type} (k' : String) (x : String × β)
    (t : List (String × β)) :
    lookupR k' (x :: t) = if x.1 == k' then some x.2 else lookupR k' t := by
  by_cases hx : (x.1 == k') = true
  · simp [lookupR, List.find?_cons_of_pos _ hx, hx]
  · simp only [Bool.not_eq_true] at hx
    simp [lookupR, List.find?_cons_of_neg, hx]

/-- In-place replacement at key `k` leaves every other key unchanged. -/
theorem lookupR_replace_ne {β : Type} (k k' : String) (v : β)
    (l : List (String × β)) (h : k' ≠ k) :
    lookupR k' (l.map (fun p => if p.1 == k then (k, v) else p)) =
      lookupR k' l := by
  have hkk' : (k == k') = false := beq_eq_false_iff_ne.mpr (Ne.symm h)
  induction l with
  | nil => rfl
  | cons p t ih =>
    simp only [beq_iff_eq] at ih
    rw [List.map_cons, lookupR_cons, lookupR_cons]
    by_cases hp1 : p.1 = k
    · simp [hp1, hkk', ih]
    · simp [hp1, ih]

/-- Appending a binding for key `k` leaves every other key unchanged. -/
theorem lookupR_append_ne {β : Type} (k k' : String) (v : β)
    (l : List (String × β)) (h : k' ≠ k) :
    lookupR k' (l ++ [(k, v)]) = lookupR k' l := by
  have hkk' : (k == k') = false := beq_eq_false_iff_ne.mpr (Ne.symm h)
  induction l with
  | nil => simp [lookupR, List.find?, hkk']
  | cons p t ih =>
    rw [List.cons_append, lookupR_cons, lookupR_cons, ih]

/-- An upsert leaves the value at every other key unchanged. -/
theorem lookupR_setR_ne {β : Type} (k k' : String) (v : β)
    (l : List (String × β)) (h : k' ≠ k) :
    lookupR k' (setR k v l) = lookupR k' l := by
  unfold setR
  by_cases ht : (l.any (fun p => p.1 == k)) = true
  · rw [if_pos ht]
    exact lookupR_replace_ne k k' v l h
  · rw [if_neg ht]
    exact lookupR_append_ne k k' v l h

set_option maxHeartbeats 2000000 in
/-- Claim C6: for a valid track index, `trackPlay` increments the folder
record's `playCount` for that track by exactly 1 (creating the record and
the stats entry from defaults when absent), moves the track name to the
front of `recentlyPlayed` with any prior occurrence removed, and in the
global history adds `playTime` to the composite key's `totalPlayTime`,
increments that entry's `playCount` by 1, and increments `totalPlays` by
exactly 1 — with both updated records persisted. The hypothesis `hwf` is
the IndexedDB keyPath invariant (a record found under a key carries that
key in its `folderId` field). -/
theorem trackPlay_updates (store : Store) (folderName : String)
    (files : List AudioFile) (trackIndex : Nat) (playTime now : Int)
    (h : trackIndex < files.length)
    (hwf : ∀ fd0, loadFolderData store
      (generateFolderId folderName (files.map (fun f => f.name))) = some fd0 →
      fd0.folderId = generateFolderId folderName (files.map (fun f => f.name))) :
    let folderId := generateFolderId folderName (files.map (fun f => f.name))
    let trackName := (files.get ⟨trackIndex, h⟩).name
    let fd := (loadFolderData store folderId).getD
      (defaultFolderData folderId folderName now)
    let gh := (store.globalHistory).getD (defaultGlobalHistory now)
    let trackId := folderId ++ "_" ++ trackName
    let result := trackPlay store folderName files trackIndex playTime now
    loadFolderData result.1 folderId = result.2.map (fun r => r.1) ∧
    result.1.globalHistory = result.2.map (fun r => r.2) ∧
    result.2.map (fun r =>
        (lookupR trackName r.1.trackStats).map (fun st => st.playCount)) =
      some (some (((lookupR trackName fd.trackStats).getD
        (defaultTrackStats trackName now)).playCount + 1)) ∧
    result.2.map (fun r => r.1.recentlyPlayed) =
      some ((trackName ::
        fd.recentlyPlayed.filter (fun n => n != trackName)).take 50) ∧
    result.2.map (fun r =>
        (lookupR trackId r.2.tracks).map (fun e => e.totalPlayTime)) =
      some (some (((lookupR trackId gh.tracks).getD
        (defaultGlobalTrackHistory trackName folderId folderName now)).totalPlayTime
          + playTime)) ∧
    result.2.map (fun r =>
        (lookupR trackId r.2.tracks).map (fun e => e.playCount)) =
      some (some (((lookupR trackId gh.tracks).getD
        (defaultGlobalTrackHistory trackName folderId folderName now)).playCount
          + 1)) ∧
    result.2.map (fun r => r.2.totalPlays) = some (gh.totalPlays + 1) := by
  have hsome : files[trackIndex]? = some (files.get ⟨trackIndex, h⟩) := by
    rw [List.getElem?_eq_getElem h, List.get_eq_getElem]
  have hfid : ((lookupR (generateFolderId folderName (files.map (fun f => f.name)))
      store.folders).getD (defaultFolderData
        (generateFolderId folderName (files.map (fun f => f.name))) folderName
          now)).folderId =
      generateFolderId folderName (files.map (fun f => f.name)) := by
    cases hl : lookupR (generateFolderId folderName (files.map (fun f => f.name)))
        store.folders with
    | none => rfl
    | some fd0 => exact hwf fd0 hl
  simp only [trackPlay, hsome, saveFolderData, saveGlobalHistory,
    loadFolderData, Option.map_some', hfid, lookupR_setR_self]
  exact ⟨trivial, trivial, trivial, trivial, trivial, trivial, trivial⟩

/-- Witness for C6: play track "A" (index 0) in folder "Album" on an
empty store with playTime 120 at time 5. -/
theorem trackPlay_updates_witness :
    let store : Store := ⟨[], none, none⟩
    let files : List AudioFile := [⟨"0-A", "A", "blob:A", false⟩]
    let folderId := generateFolderId "Album" (files.map (fun f => f.name))
    let trackName := (files.get ⟨0, by decide⟩).name
    let fd := (loadFolderData store folderId).getD
      (defaultFolderData folderId "Album" 5)
    let gh := (store.globalHistory).getD (defaultGlobalHistory 5)
    let trackId := folderId ++ "_" ++ trackName
    let result := trackPlay store "Album" files 0 120 5
    loadFolderData result.1 folderId = result.2.map (fun r => r.1) ∧
    result.1.globalHistory = result.2.map (fun r => r.2) ∧
    result.2.map (fun r =>
        (lookupR trackName r.1.trackStats).map (fun st => st.playCount)) =
      some (some (((lookupR trackName fd.trackStats).getD
        (defaultTrackStats trackName 5)).playCount + 1)) ∧
    result.2.map (fun r => r.1.recentlyPlayed) =
      some ((trackName ::
        fd.recentlyPlayed.filter (fun n => n != trackName)).take 50) ∧
    result.2.map (fun r =>
        (lookupR trackId r.2.tracks).map (fun e => e.totalPlayTime)) =
      some (some (((lookupR trackId gh.tracks).getD
        (defaultGlobalTrackHistory trackName folderId "Album" 5)).totalPlayTime
          + 120)) ∧
    result.2.map (fun r =>
        (lookupR trackId r.2.tracks).map (fun e => e.playCount)) =
      some (some (((lookupR trackId gh.tracks).getD
        (defaultGlobalTrackHistory trackName folderId "Album" 5)).playCount
          + 1)) ∧
    result.2.map (fun r => r.2.totalPlays) = some (gh.totalPlays + 1) :=
  trackPlay_updates ⟨[], none, none⟩ "Album" [⟨"0-A", "A", "blob:A", false⟩]
    0 120 5 (by decide) (fun fd0 h0 => Option.noConfusion h0)

/-- Claim C8: `trackQueue` on a folder with no stored `FolderRecord`
leaves the store unchanged and creates no record; on a folder with a
stored record it increments only the named track's `queueCount`
(creating the stats entry if needed), leaves every other track's stats,
every other folder, the settings and the global history unchanged. The
hypothesis `hfid` is the IndexedDB keyPath invariant for the record. -/
theorem trackQueue_noop_and_frame (store : Store) (folderName : String)
    (files : List AudioFile) (trackIndex : Nat) (now : Int) :
    let folderId := generateFolderId folderName (files.map (fun f => f.name))
    (loadFolderData store folderId = none →
      trackQueue store folderName files trackIndex now = (store, none)) ∧
    (∀ fd, loadFolderData store folderId = some fd →
      fd.folderId = folderId →
      ∀ h : trackIndex < files.length,
      let trackName := (files.get ⟨trackIndex, h⟩).name
      let stats := (lookupR trackName fd.trackStats).getD
        (defaultTrackStats trackName now)
      let stats' : TrackStats := { stats with queueCount := stats.queueCount + 1 }
      let result := trackQueue store folderName files trackIndex now
      result.1.globalHistory = store.globalHistory ∧
      result.1.settings = store.settings ∧
      (∀ k, k ≠ folderId → lookupR k result.1.folders = lookupR k store.folders) ∧
      loadFolderData result.1 folderId =
        some { fd with trackStats := setR trackName stats' fd.trackStats } ∧
      lookupR trackName (setR trackName stats' fd.trackStats) = some stats' ∧
      (∀ k, k ≠ trackName →
        lookupR k (setR trackName stats' fd.trackStats) =
          lookupR k fd.trackStats) ∧
      result.2 = some stats') := by
  constructor
  · intro hnone
    rcases hix : files[trackIndex]? with _ | file
    · simp [trackQueue, hix]
    · simp [trackQueue, hix, loadFolderData] at hnone ⊢
      simp [hnone]
  · intro fd hfd hfid h
    have hix : files[trackIndex]? = some (files.get ⟨trackIndex, h⟩) := by
      rw [List.getElem?_eq_getElem h, List.get_eq_getElem]
    simp only [loadFolderData] at hfd
    refine ⟨?_, ?_, ?_, ?_, ?_, ?_, ?_⟩ <;>
        (try simp only [trackQueue, hix, hfd, loadFolderData, saveFolderData,
          hfid, lookupR_setR_self]) <;>
      (try (intro k hk; exact lookupR_setR_ne _ _ _ _ hk))

/-- Witness for C8: the no-op branch on an empty store, and the
increment branch on a store holding one record for folder "Album" with
an existing stats entry for track "A" (queueCount 3 becomes 4, global
history untouched). -/
theorem trackQueue_noop_and_frame_witness :
    (trackQueue ⟨[], none, none⟩ "Album" [⟨"0-A", "A", "blob:A", false⟩] 0 9 =
      (⟨[], none, none⟩, none)) ∧
    (let fid := generateFolderId "Album"
       (([⟨"0-A", "A", "blob:A", false⟩] : List AudioFile).map (fun f => f.name))
     let fd : FolderData := ⟨fid, "Album", 1, 0, 0, 1, [], 1, false, false,
       [], ["A"], [("A", ⟨"A", 2, 3, 1⟩)]⟩
     let store : Store := ⟨[(fid, fd)], none,
       some ⟨[], 0, 0⟩⟩
     let result := trackQueue store "Album" [⟨"0-A", "A", "blob:A", false⟩] 0 9
     result.1.globalHistory = store.globalHistory ∧
     result.2 = some ⟨"A", 2, 4, 1⟩) := by
  refine ⟨(trackQueue_noop_and_frame ⟨[], none, none⟩ "Album"
    [⟨"0-A", "A", "blob:A", false⟩] 0 9).1 rfl, ?_⟩
  have happ := (trackQueue_noop_and_frame
    ⟨[(generateFolderId "Album"
        (([⟨"0-A", "A", "blob:A", false⟩] : List AudioFile).map (fun f => f.name)),
       ⟨generateFolderId "Album"
         (([⟨"0-A", "A", "blob:A", false⟩] : List AudioFile).map (fun f => f.name)),
        "Album", 1, 0, 0, 1, [], 1, false, false, [], ["A"],
        [("A", ⟨"A", 2, 3, 1⟩)]⟩)], none, some ⟨[], 0, 0⟩⟩ "Album"
    [⟨"0-A", "A", "blob:A", false⟩] 0 9).2 _
    (by rw [loadFolderData, lookupR_cons]
        simp only [beq_self_eq_true, if_true]
        rfl)
    rfl (by decide)
  exact ⟨happ.1, happ.2.2.2.2.2.2⟩

/-! ## Cap-and-dedup lemmas for `recentlyPlayed` and `recentFolders` -/

/-- Taking at most `n` elements bounds the length by `n`. -/
theorem pushFrontCap_length {α : Type} (e : α) (l : List α) (n : Nat) :
    ((e :: l).take n).length ≤ n := by
  rw [List.length_take]
  exact Nat.min_le_left _ _

/-- The pushed element stays at the front after truncation. -/
theorem pushFrontCap_head {α : Type} (e : α) (l : List α) (n : Nat) :
    ((e :: l).take (n + 1)).head? = some e := by
  rw [List.take_succ_cons]
  rfl

/-- Filtering out the key removes every entry matching it. -/
theorem filter_key_false {α : Type} (key : α → String) (k0 : String)
    (l : List α) :
    ∀ x ∈ l.filter (fun x => key x != k0), (key x == k0) = false := by
  intro x hx
  have h2 := (List.mem_filter.mp hx).2
  simpa using h2

/-- Exactly one entry matching the key survives push-front + truncation,
when the tail has none. -/
theorem pushFrontCap_countP {α : Type} (p : α → Bool) (e : α)
    (he : p e = true) (l : List α) (hl : ∀ x ∈ l, p x = false) (n : Nat) :
    ((e :: l).take (n + 1)).countP p = 1 := by
  rw [List.take_succ_cons, List.countP_cons_of_pos _ _ he]
  have hz : (l.take n).countP p = 0 :=
    List.countP_eq_zero.mpr (fun x hx => by
      simp [hl x (List.mem_of_mem_take hx)])
  rw [hz]

/-- Push-front after filtering the key, then truncation, preserves
freedom from duplicate keys. -/
theorem pushFrontCap_nodup_key {α : Type} (key : α → String) (e : α)
    (l : List α) (hl : (l.map key).Nodup) (n : Nat) :
    (((e :: l.filter (fun x => key x != key e)).take (n + 1)).map key).Nodup := by
  rw [List.map_take]
  refine List.Nodup.sublist (List.take_sublist _ _) ?_
  rw [List.map_cons]
  refine List.nodup_cons.mpr ⟨?_, ?_⟩
  · intro hmem
    obtain ⟨x, hx, hkey⟩ := List.mem_map.mp hmem
    have h2 := (List.mem_filter.mp hx).2
    rw [hkey] at h2
    simp at h2
  · exact List.Nodup.sublist ((List.filter_sublist _).map key) hl

/-- Claim C9: after every `trackPlay`, `recentlyPlayed` has at most 50
entries, stays duplicate-free (given the stored record was), keeps the
played track at the front, with exactly one occurrence of it; after
every `updateRecentFolders`, `recentFolders` has at most 10 entries,
stays free of duplicate folder ids (given the stored list was), keeps
the new entry at the front, with exactly one entry for that folder id. -/
theorem recentLists_caps_and_dedup :
    (∀ (store : Store) (folderName : String) (files : List AudioFile)
        (trackIndex : Nat) (playTime now : Int) (h : trackIndex < files.length)
        (fd' : FolderData) (gh' : GlobalHistory),
      (trackPlay store folderName files trackIndex playTime now).2 =
          some (fd', gh') →
        fd'.recentlyPlayed.length ≤ 50 ∧
        ((((loadFolderData store (generateFolderId folderName
              (files.map (fun f => f.name)))).getD
            (defaultFolderData (generateFolderId folderName
              (files.map (fun f => f.name))) folderName now)).recentlyPlayed).Nodup →
          fd'.recentlyPlayed.Nodup) ∧
        fd'.recentlyPlayed.head? = some (files.get ⟨trackIndex, h⟩).name ∧
        fd'.recentlyPlayed.countP
          (fun x => x == (files.get ⟨trackIndex, h⟩).name) = 1) ∧
    (∀ (store : Store) (folderId folderName : String) (now : Int)
        (settings' : GlobalSettings),
      (updateRecentFolders store folderId folderName now).settings =
          some settings' →
        settings'.recentFolders.length ≤ 10 ∧
        (((((store.settings).getD ⟨"dark", 1, []⟩).recentFolders).map
            (fun f => f.folderId)).Nodup →
          (settings'.recentFolders.map (fun f => f.folderId)).Nodup) ∧
        settings'.recentFolders.head? = some ⟨folderId, folderName, now⟩ ∧
        settings'.recentFolders.countP (fun f => f.folderId == folderId) = 1) := by
  constructor
  · intro store folderName files trackIndex playTime now h fd' gh' heq
    have hsome : files[trackIndex]? = some (files.get ⟨trackIndex, h⟩) := by
      rw [List.getElem?_eq_getElem h, List.get_eq_getElem]
    simp only [trackPlay, hsome, Option.some.injEq, Prod.mk.injEq] at heq
    obtain ⟨h1, _h2⟩ := heq
    subst h1
    refine ⟨?_, ?_, ?_, ?_⟩
    · exact pushFrontCap_length _ _ _
    · intro hnd
      have hres := pushFrontCap_nodup_key (fun x => x)
        (files.get ⟨trackIndex, h⟩).name _ (by simpa [List.map_id] using hnd) 49
      simpa [List.map_id] using hres
    · exact pushFrontCap_head _ _ 49
    · refine pushFrontCap_countP _ _ (by simp) _ ?_ 49
      exact filter_key_false (fun x => x) _ _
  · intro store folderId folderName now settings' heq
    simp only [updateRecentFolders, saveGlobalSettings, Option.some.injEq] at heq
    subst heq
    refine ⟨?_, ?_, ?_, ?_⟩
    · exact pushFrontCap_length _ _ _
    · intro hnd
      exact pushFrontCap_nodup_key (fun (f : RecentFolder) => f.folderId)
        ⟨folderId, folderName, now⟩ _ hnd 9
    · exact pushFrontCap_head _ _ 9
    · refine pushFrontCap_countP _ _ (by simp) _ ?_ 9
      exact filter_key_false (fun (f : RecentFolder) => f.folderId) _ _

/-- Witness for C9: one `trackPlay` on an empty store (recently played
becomes `["A"]`) and one `updateRecentFolders` on empty settings. -/
theorem recentLists_caps_and_dedup_witness :
    ((["A"] : List String).length ≤ 50 ∧
     (["A"] : List String).head? = some "A" ∧
     (["A"] : List String).countP (fun x => x == "A") = 1) ∧
    (([⟨"folder_x", "Album", 7⟩] : List RecentFolder).length ≤ 10 ∧
     ([⟨"folder_x", "Album", 7⟩] : List RecentFolder).head? =
       some ⟨"folder_x", "Album", 7⟩ ∧
     ([⟨"folder_x", "Album", 7⟩] : List RecentFolder).countP
       (fun f => f.folderId == "folder_x") = 1) := by
  have h1 := recentLists_caps_and_dedup.1 ⟨[], none, none⟩ "Album"
    [⟨"0-A", "A", "blob:A", false⟩] 0 120 5 (by decide)
    ⟨generateFolderId "Album" (([⟨"0-A", "A", "blob:A", false⟩] :
        List AudioFile).map (fun (f : AudioFile) => f.name)),
     "Album", 5, 0, 0, 5, [], 1, false, false, [], ["A"],
     [("A", ⟨"A", 1, 0, 5⟩)]⟩
    ⟨[(generateFolderId "Album" (([⟨"0-A", "A", "blob:A", false⟩] :
          List AudioFile).map (fun (f : AudioFile) => f.name)) ++ "_" ++ "A",
       ⟨"A", generateFolderId "Album" (([⟨"0-A", "A", "blob:A", false⟩] :
           List AudioFile).map (fun (f : AudioFile) => f.name)),
        "Album", 1, 120, 5⟩)], 1, 5⟩
    rfl
  have h2 := recentLists_caps_and_dedup.2 ⟨[], none, none⟩ "folder_x" "Album" 7
    ⟨"dark", 1, [⟨"folder_x", "Album", 7⟩]⟩ rfl
  exact ⟨⟨h1.1, h1.2.2.1, h1.2.2.2⟩, ⟨h2.1, h2.2.2.1, h2.2.2.2⟩⟩

/-- Claim C10: the record `saveState` builds for the debounced write
takes `lastOpened`, `lastPlayedTrackIndex`, `lastPlayedPosition`,
`volume`, `isShuffle`, `isRepeat` and `favorites` (recomputed wholesale
from the live files' liked flags) from the live state, and carries
`customPlaylists`, `recentlyPlayed` and `trackStats` through unchanged
from the previously stored record (empty defaults when none exists) —
so a debounced save never erases accumulated play statistics. -/
theorem saveState_preserves_history (store : Store) (state : PersistenceState)
    (now : Int) :
    let r := saveStateRecord store state now
    let existing := loadFolderData store
      (generateFolderId state.folderName (state.files.map (fun f => f.name)))
    r.lastPlayedTrackIndex = state.currentIndex ∧
    r.lastPlayedPosition = state.currentTime ∧
    r.volume = state.volume ∧
    r.isShuffle = state.isShuffle ∧
    r.isRepeat = state.isRepeat ∧
    r.lastOpened = now ∧
    r.lastPlayedTimestamp = now ∧
    r.favorites = (state.files.filter (fun f => f.liked)).map (fun f => f.name) ∧
    r.customPlaylists = (existing.map (fun e => e.customPlaylists)).getD [] ∧
    r.recentlyPlayed = (existing.map (fun e => e.recentlyPlayed)).getD [] ∧
    r.trackStats = (existing.map (fun e => e.trackStats)).getD [] ∧
    (∀ e, existing = some e →
      r.trackStats = e.trackStats ∧ r.recentlyPlayed = e.recentlyPlayed ∧
      r.customPlaylists = e.customPlaylists) ∧
    saveStateWrite store state now = saveFolderData store r := by
  refine ⟨rfl, rfl, rfl, rfl, rfl, rfl, rfl, rfl, rfl, rfl, rfl, ?_, rfl⟩
  intro e he
  simp only [saveStateRecord, loadFolderData] at he ⊢
  rw [he]
  exact ⟨rfl, rfl, rfl⟩

/-- Witness for C10: a store holding a record for folder "Album" with
accumulated playlists, history and stats; the built record keeps them
while refreshing the live fields. -/
theorem saveState_preserves_history_witness :
    (saveStateRecord
        ⟨[(generateFolderId "Album" (([⟨"0-A", "A", "blob:A", true⟩] :
             List AudioFile).map (fun (f : AudioFile) => f.name)),
           ⟨generateFolderId "Album" (([⟨"0-A", "A", "blob:A", true⟩] :
              List AudioFile).map (fun (f : AudioFile) => f.name)),
            "Album", 1, 0, 0, 1, [], 1, false, false, [⟨"mix", ["B"], 2⟩],
            ["B"], [("B", ⟨"B", 4, 0, 2⟩)]⟩)], none, none⟩
        ⟨"", "Album", [⟨"0-A", "A", "blob:A", true⟩], 0, 3, 1, false, false⟩
        9).trackStats = [("B", ⟨"B", 4, 0, 2⟩)] ∧
    (saveStateRecord
        ⟨[(generateFolderId "Album" (([⟨"0-A", "A", "blob:A", true⟩] :
             List AudioFile).map (fun (f : AudioFile) => f.name)),
           ⟨generateFolderId "Album" (([⟨"0-A", "A", "blob:A", true⟩] :
              List AudioFile).map (fun (f : AudioFile) => f.name)),
            "Album", 1, 0, 0, 1, [], 1, false, false, [⟨"mix", ["B"], 2⟩],
            ["B"], [("B", ⟨"B", 4, 0, 2⟩)]⟩)], none, none⟩
        ⟨"", "Album", [⟨"0-A", "A", "blob:A", true⟩], 0, 3, 1, false, false⟩
        9).favorites = ["A"] := by
  have h := saveState_preserves_history
    ⟨[(generateFolderId "Album" (([⟨"0-A", "A", "blob:A", true⟩] :
         List AudioFile).map (fun (f : AudioFile) => f.name)),
       ⟨generateFolderId "Album" (([⟨"0-A", "A", "blob:A", true⟩] :
          List AudioFile).map (fun (f : AudioFile) => f.name)),
        "Album", 1, 0, 0, 1, [], 1, false, false, [⟨"mix", ["B"], 2⟩],
        ["B"], [("B", ⟨"B", 4, 0, 2⟩)]⟩)], none, none⟩
    ⟨"", "Album", [⟨"0-A", "A", "blob:A", true⟩], 0, 3, 1, false, false⟩ 9
  refine ⟨?_, h.2.2.2.2.2.2.2.1⟩
  have he := (h.2.2.2.2.2.2.2.2.2.2.2.1
    ⟨generateFolderId "Album" (([⟨"0-A", "A", "blob:A", true⟩] :
       List AudioFile).map (fun (f : AudioFile) => f.name)),
     "Album", 1, 0, 0, 1, [], 1, false, false, [⟨"mix", ["B"], 2⟩],
     ["B"], [("B", ⟨"B", 4, 0, 2⟩)]⟩
    (by rw [loadFolderData, lookupR_cons]
        simp only [beq_self_eq_true, if_true]))
  exact he.1

/-- Claim C2: on folder scan, reconciliation follows the strict priority
order of `handleFolderSelect`: (1) a valid export document found under
the reserved filename is authoritative and its `globalHistory` is
written through to the store as a wholesale replacement; (2) otherwise a
stored `FolderRecord` under the derived folder id (via `loadState`) is
authoritative; (3) otherwise defaults apply — empty favorites (all liked
flags false), no track stats, and `currentIndex = 0` if any tracks exist
else `-1` (the fresh player's initial index). -/
theorem handleFolderSelect_priority :
    (∀ (store : Store) (s : PlayerState) (audioFiles : List AudioFile)
        (doc : RawExport) (folderPath : String) (r : ImportResult),
      importFolderData (some doc) audioFiles = some r →
        handleFolderSelect store s audioFiles (some (some doc)) folderPath =
          (applyPersistedData r.folderData audioFiles s,
           applyImportedData store r) ∧
        (∀ gh, r.globalHistory = some gh →
          (handleFolderSelect store s audioFiles (some (some doc))
            folderPath).2.globalHistory = some gh)) ∧
    (∀ (store : Store) (s : PlayerState) (audioFiles : List AudioFile)
        (jsonFile : Option (Option RawExport)) (folderPath : String)
        (dbData : FolderData),
      parseScannedExport jsonFile audioFiles = none →
      loadState store folderPath audioFiles = some dbData →
        handleFolderSelect store s audioFiles jsonFile folderPath =
          (applyPersistedData (toRaw dbData) audioFiles s, store)) ∧
    (∀ (store : Store) (s : PlayerState) (audioFiles : List AudioFile)
        (jsonFile : Option (Option RawExport)) (folderPath : String),
      parseScannedExport jsonFile audioFiles = none →
      loadState store folderPath audioFiles = none →
      s.currentIndex = -1 →
      (∀ f ∈ audioFiles, f.liked = false) →
        handleFolderSelect store s audioFiles jsonFile folderPath =
          ({ s with files := audioFiles,
                    trackStats := ([] : List (String × TrackStats)),
                    currentIndex := if 0 < audioFiles.length then 0 else -1 },
           store) ∧
        (∀ f ∈ (handleFolderSelect store s audioFiles jsonFile
            folderPath).1.files, f.liked = false)) := by
  refine ⟨?_, ?_, ?_⟩
  · intro store s audioFiles doc folderPath r hj
    have hps : parseScannedExport (some (some doc)) audioFiles = some r := hj
    constructor
    · simp only [handleFolderSelect, hps]
    · intro gh hgh
      simp only [handleFolderSelect, hps, applyImportedData, hgh,
        saveGlobalHistory]
  · intro store s audioFiles jsonFile folderPath dbData hj hdb
    simp only [handleFolderSelect, hj, hdb]
  · intro store s audioFiles jsonFile folderPath hj hdb hidx hliked
    constructor
    · simp only [handleFolderSelect, hj, hdb, hidx]
    · intro f hf
      simp only [handleFolderSelect, hj, hdb] at hf
      exact hliked f hf

/-- Witness for C2: the import branch applied to `docIndexFive` over an
empty scan, and the defaults branch for a fresh two-track folder "Album"
never seen before (yielding `currentIndex = 0`, no stats, no likes). -/
theorem handleFolderSelect_priority_witness :
    (handleFolderSelect ⟨[], none, none⟩ ⟨[], -1, [], 1, false, false⟩ []
        (some (some docIndexFive)) "Album" =
      (applyPersistedData
        (⟨some "folder_x", some "Album", some 0, some 0, some 0, some 0,
          some [], some 1, some false, some false, some [], some [],
          some []⟩ : RawFolderData) []
        ⟨[], -1, [], 1, false, false⟩,
       applyImportedData ⟨[], none, none⟩
         ⟨⟨some "folder_x", some "Album", some 0, some 0, some 0, some 0,
           some [], some 1, some false, some false, some [], some [],
           some []⟩, none⟩)) ∧
    (handleFolderSelect ⟨[], none, none⟩ ⟨[], -1, [], 1, false, false⟩
        [⟨"0-A", "A", "blob:A", false⟩, ⟨"1-B", "B", "blob:B", false⟩]
        none "Album" =
      (⟨[⟨"0-A", "A", "blob:A", false⟩, ⟨"1-B", "B", "blob:B", false⟩],
        0, [], 1, false, false⟩, ⟨[], none, none⟩)) := by
  constructor
  · exact ((handleFolderSelect_priority.1 ⟨[], none, none⟩
      ⟨[], -1, [], 1, false, false⟩ [] docIndexFive "Album"
      ⟨⟨some "folder_x", some "Album", some 0, some 0, some 0, some 0,
        some [], some 1, some false, some false, some [], some [],
        some []⟩, none⟩ rfl).1)
  · exact ((handleFolderSelect_priority.2.2 ⟨[], none, none⟩
      ⟨[], -1, [], 1, false, false⟩
      [⟨"0-A", "A", "blob:A", false⟩, ⟨"1-B", "B", "blob:B", false⟩]
      none "Album" rfl rfl rfl (by decide)).1)

/-- Quiescence lemma: while each call arrives strictly within 1000ms of
the previous one, no pending timer ever fires, and the final pending
timer is the last call's, armed at its time plus the delay. -/
theorem runDebounce_quiet {α : Type} :
    ∀ (calls : List (Nat × α)) (t0 : Nat) (f0 : α),
      List.Chain' (fun a b => a.1 ≤ b.1 ∧ b.1 < a.1 + 1000)
        ((t0, f0) :: calls) →
      runDebounce calls (some (t0 + 1000, f0)) =
        ([], some ((lastCall (t0, f0) calls).1 + 1000,
          (lastCall (t0, f0) calls).2))
  | [], t0, f0, _ => rfl
  | (t, f) :: rest, t0, f0, hchain => by
    obtain ⟨hstep, hrest⟩ := List.chain'_cons.mp hchain
    have hlt : ¬(t0 + 1000 ≤ t) := Nat.not_le.mpr hstep.2
    simp only [runDebounce, debouncedSaveCall, hlt, if_false,
      runDebounce_quiet rest t f hrest, lastCall, List.nil_append]

/-- Claim C7: for every nonempty sequence of `debouncedSave` calls each
arriving within the 1000ms delay of the previous one, no write executes
during the calls; once the calls quiesce, nothing fires before the full
delay after the last call, and exactly one write — the last call's —
fires once the delay elapses undisturbed. -/
theorem debouncedSave_coalesces {α : Type} (c : Nat × α)
    (calls : List (Nat × α))
    (hchain : List.Chain' (fun a b => a.1 ≤ b.1 ∧ b.1 < a.1 + 1000)
      (c :: calls)) :
    runDebounce (c :: calls) none =
      ([], some ((lastCall c calls).1 + 1000, (lastCall c calls).2)) ∧
    (∀ T, T < (lastCall c calls).1 + 1000 →
      elapse (some ((lastCall c calls).1 + 1000, (lastCall c calls).2)) T
        = []) ∧
    (∀ T, (lastCall c calls).1 + 1000 ≤ T →
      elapse (some ((lastCall c calls).1 + 1000, (lastCall c calls).2)) T
        = [(lastCall c calls).2]) := by
  obtain ⟨t0, f0⟩ := c
  refine ⟨?_, ?_, ?_⟩
  · simp only [runDebounce, debouncedSaveCall,
      runDebounce_quiet calls t0 f0 hchain, List.nil_append]
  · intro T hT
    simp only [elapse, if_neg (Nat.not_le.mpr hT)]
  · intro T hT
    simp only [elapse, if_pos hT]

/-- Witness for C7: two calls at times 0 and 500 (within the delay);
nothing fires during the calls or at time 1499, and exactly the second
call's write fires at time 1500. -/
theorem debouncedSave_coalesces_witness :
    runDebounce [(0, "w1"), (500, "w2")] (none : Option (Nat × String)) =
      ([], some (1500, "w2")) ∧
    elapse (some (1500, "w2")) 1499 = ([] : List String) ∧
    elapse (some (1500, "w2")) 1500 = ["w2"] := by
  have h := debouncedSave_coalesces (0, "w1") [(500, "w2")]
    (List.chain'_cons.mpr ⟨⟨by decide, by decide⟩, List.chain'_singleton _⟩)
  exact ⟨h.1, h.2.1 1499 (by decide), h.2.2 1500 (by decide)⟩

end ElevenMusic
